import Mathlib

/-!
Shallow embedding of the Pyvolt client library (src/pyvolt/http.py,
src/pyvolt/models/flags.py) used to verify the specification claims.

Conventions of the embedding:
* Python ints are `Nat` (all values handled here are nonnegative);
  `value & ~o` on nonnegative ints is `pyAndNot`.
* Python dicts with string keys are association lists with first-match
  lookup (`pyDictGet`) and replace-or-append assignment (`setItem`);
  keys are unique in every dict built by the code.
* Decoded HTTP bodies (`json_or_text`) are a `Body` value: either raw
  text or a JSON object projected onto the two fields the dispatcher
  reads (`retry_after`, `global`).  The floating-point `retry_after`
  value is carried opaquely by a type parameter `F`: the code only
  moves it from the body to `asyncio.sleep`.
* The side effects of `HTTPClient.request` (sleeps, clearing and
  setting the `_global_over` event) are recorded as an `Event` trace;
  the environment supplies the response or `OSError` of each attempt.
-/

/-- Python dict lookup `d.get(k)` on an association list (first match). -/
def pyDictGet {α : Type} : List (String × α) → String → Option α
  | [], _ => none
  | (k, v) :: rest, key => if k = key then some v else pyDictGet rest key

/-- Python dict assignment `d[k] = v`: replace the existing key in place,
else append the new pair at the end. -/
def setItem {α : Type} : List (String × α) → String → α → List (String × α)
  | [], k, v => [(k, v)]
  | (k0, v0) :: rest, k, v => if k0 = k then (k, v) :: rest else (k0, v0) :: setItem rest k v

/-- The two TypeError messages raised by `BaseFlags` (flags.py lines 98 and 134). -/
inductive TypeErrMsg where
  | notAValidFlagName (key : String)
  | mustBeABool (className : String)
deriving DecidableEq

/-- Python exception values raised by the embedded code.  The HTTP error
kinds (errors.py) carry the response status; `loginFailure` carries its
`__cause__`. -/
inductive PyError where
  | typeError (msg : TypeErrMsg)
  | keyError (key : String)
  | httpException (status : Nat)
  | forbidden (status : Nat)
  | notFound (status : Nat)
  | revoltServerError (status : Nat)
  | loginFailure (msg : String) (cause : PyError)
  | osError (errno : Int)
  | runtimeError (msg : String)
deriving DecidableEq

/-- Result of running a fragment of Python code: a value or a raised exception. -/
inductive PyResult (α : Type) where
  | ok (a : α)
  | exn (e : PyError)
deriving DecidableEq

/-- Modelled from the spec: errors.py is not under src/.  Spec section 4.2
presents HTTPException as the base kind of the error hierarchy with
Forbidden (403), NotFound (404) and RevoltServerError (5xx) as the more
specific kinds the transport raises, so an `except HTTPException` clause
catches these four kinds.  LoginFailure is raised only by the login
operation (never by `request`) and wraps an HTTPException as its cause;
OSError and other runtime errors are not HTTP exceptions. -/
def isHTTPExceptionKind : PyError → Bool
  | .httpException _ => true
  | .forbidden _ => true
  | .notFound _ => true
  | .revoltServerError _ => true
  | _ => false

/-- The `.status` attribute of an HTTP exception kind (junk 0 otherwise). -/
def statusOfExc : PyError → Nat
  | .httpException s => s
  | .forbidden s => s
  | .notFound s => s
  | .revoltServerError s => s
  | _ => 0

/-- `value & ~o` on nonnegative Python ints: clear the bits of `o` in `value`.
Expressed with executable operations; `pyAndNot_testBit` states the bitwise
characterisation of `& ~`. -/
def pyAndNot (value o : Nat) : Nat := value ^^^ (value &&& o)

/-- A value passed as a flag override: either a Python bool or some
non-boolean object (`_set_flag` tests `toggle is True` / `toggle is False`). -/
inductive PyVal where
  | pybool (b : Bool)
  | nonBool
deriving DecidableEq

/-- One member of a Python class body as seen by the `fill_with_flags`
decorator: a `flag_value` descriptor (holding its bit constant, the result
of calling the decorated unit function) or any other member. -/
inductive ClassMember where
  | flagVal (bit : Nat)
  | otherMember
deriving DecidableEq

/-- The `VALID_FLAGS` computation of `fill_with_flags` (flags.py lines 66-70):
collect every `flag_value` member of the class dict into a name-to-bit
mapping, in declaration order. -/
def collectFlags : List (String × ClassMember) → List (String × Nat)
  | [] => []
  | (name, ClassMember.flagVal bit) :: rest => (name, bit) :: collectFlags rest
  | (_, ClassMember.otherMember) :: rest => collectFlags rest

/-- Python `max` over a list of naturals (the code applies it to the
nonempty `VALID_FLAGS.values()`; on an empty list Python raises, here the
junk value is 0). -/
def maxValues (l : List Nat) : Nat := l.foldl max 0

/-- The `DEFAULT_VALUE` computation of `fill_with_flags` (flags.py lines
73-77): 0, or all bits up to the bit length of the largest flag value set
when the flag set is declared inverted (`-1 + 2 ** max_bits` with
`max_bits = max(VALID_FLAGS.values()).bit_length()`; `Nat.size` is
Python's `int.bit_length`). -/
def defaultValue (inverted : Bool) (validFlags : List (String × Nat)) : Nat :=
  if inverted then 2 ^ Nat.size (maxValues (validFlags.map Prod.snd)) - 1 else 0

/-- `BaseFlags._has_flag` (flags.py line 125): `(self.value & o) == o`. -/
def has_flag (value o : Nat) : Bool := (value &&& o) == o

/-- `BaseFlags._set_flag` (flags.py lines 128-134): set the bits of `o` when
the toggle is `True`, clear them when it is `False`, raise TypeError for
any non-boolean toggle. -/
def set_flag (className : String) (value o : Nat) : PyVal → PyResult Nat
  | .pybool true => .ok (value ||| o)
  | .pybool false => .ok (pyAndNot value o)
  | .nonBool => .exn (.typeError (.mustBeABool className))

/-- `BaseFlags.__init__` (flags.py lines 93-100): start from the class
default, then process the keyword overrides in order; an undeclared name
raises TypeError, and declared names are written through the descriptor,
i.e. `_set_flag` with the declared bit. -/
def initFlags (className : String) (validFlags : List (String × Nat)) (value : Nat) :
    List (String × PyVal) → PyResult Nat
  | [] => .ok value
  | (key, v) :: rest =>
    match pyDictGet validFlags key with
    | none => .exn (.typeError (.notAValidFlagName key))
    | some bit =>
      match set_flag className value bit v with
      | .ok value2 => initFlags className validFlags value2 rest
      | .exn e => .exn e

/-- `BaseFlags.__iter__` (flags.py lines 120-123): yield each declared
`(name, _has_flag value)` pair in class-dict declaration order. -/
def iterFlags (classDict : List (String × ClassMember)) (value : Nat) : List (String × Bool) :=
  (collectFlags classDict).map (fun p => (p.1, has_flag value p.2))

/-- The class body of `UserBadges` (flags.py lines 137-189): ten
`flag_value` members with bits `1 << 0` through `1 << 9`, in declaration
order. -/
def UserBadges.classDict : List (String × ClassMember) :=
  [("developer", .flagVal (1 <<< 0)),
   ("translator", .flagVal (1 <<< 1)),
   ("supporter", .flagVal (1 <<< 2)),
   ("responsible_disclosure", .flagVal (1 <<< 3)),
   ("founder", .flagVal (1 <<< 4)),
   ("platform_moderation", .flagVal (1 <<< 5)),
   ("active_supporter", .flagVal (1 <<< 6)),
   ("paw", .flagVal (1 <<< 7)),
   ("early_adopter", .flagVal (1 <<< 8)),
   ("reserved_relevant_joke_badge_1", .flagVal (1 <<< 9))]

/-- `UserBadges.VALID_FLAGS`, produced by the `@fill_with_flags()` decorator. -/
def UserBadges.VALID_FLAGS : List (String × Nat) := collectFlags UserBadges.classDict

/-- `UserBadges.DEFAULT_VALUE`: the decorator is applied without inversion. -/
def UserBadges.DEFAULT_VALUE : Nat := defaultValue false UserBadges.VALID_FLAGS

/-- `UserBadges(**kwargs)`: run `BaseFlags.__init__` with the class data of
`UserBadges`, returning the backing integer (`.value`, by which instances
compare equal) or the raised exception. -/
def UserBadges.new (kwargs : List (String × PyVal)) : PyResult Nat :=
  initFlags "UserBadges" UserBadges.VALID_FLAGS UserBadges.DEFAULT_VALUE kwargs

/-- The update a single valid boolean keyword applies to the backing value
(the `.ok` branches of `set_flag`); used to state how `initFlags` folds. -/
def applyKw (validFlags : List (String × Nat)) (value : Nat) (kv : String × PyVal) : Nat :=
  match pyDictGet validFlags kv.1, kv.2 with
  | some bit, .pybool true => value ||| bit
  | some bit, .pybool false => pyAndNot value bit
  | _, _ => value

/-- `Route` (http.py lines 56-75): method, literal path template and the
supplied path parameters (string-valued here; the major parameters are
strings in every call site). -/
structure Route where
  method : String
  path : String
  params : List (String × String)
deriving DecidableEq

/-- Python str() of an optional string as an f-string renders it: the string
itself, or `"None"` for an absent value. -/
def pyFormatOpt : Option String → String
  | none => "None"
  | some s => s

/-- `Route.channel_id`: `parameters.get('channel_id')`. -/
def Route.channel_id (r : Route) : Option String := pyDictGet r.params "channel_id"

/-- `Route.server_id`: `parameters.get('server_id')`. -/
def Route.server_id (r : Route) : Option String := pyDictGet r.params "server_id"

/-- `Route.bucket` (http.py lines 72-75):
`f'{self.channel_id}:{self.server_id}:{self.path}'`. -/
def Route.bucket (r : Route) : String :=
  pyFormatOpt r.channel_id ++ ":" ++ pyFormatOpt r.server_id ++ ":" ++ r.path

/-- A decoded response body, the result of `json_or_text` (http.py lines
44-53): raw text (content type other than application/json, or missing), or
a JSON object projected onto the two fields `request` reads: `retry_after`
(an opaque float of type `F`) and `global`. -/
inductive Body (F : Type) where
  | text (s : String)
  | json (retryAfterField : Option F) (globalField : Option Bool)
deriving DecidableEq

/-- `isinstance(data, str)` on a decoded body. -/
def Body.isText {F : Type} : Body F → Bool
  | .text _ => true
  | .json _ _ => false

/-- `data['retry_after']` on a JSON body (`none` means Python would raise
KeyError). -/
def Body.retryAfterValue {F : Type} : Body F → Option F
  | .json ra _ => ra
  | .text _ => none

/-- `data.get('global', False)` on a JSON body. -/
def Body.globalValue {F : Type} : Body F → Bool
  | .json _ g => g.getD false
  | .text _ => false

/-- One HTTP response as the dispatcher sees it: status code, truthiness of
`response.headers.get('Via')`, and the decoded body. -/
structure Resp (F : Type) where
  status : Nat
  hasVia : Bool
  body : Body F
deriving DecidableEq

/-- What one attempt of the retry loop receives from the network: a response,
or an `OSError` with the given errno raised by the request call. -/
inductive Attempt (F : Type) where
  | resp (r : Resp F)
  | osErr (errno : Int)
deriving DecidableEq

/-- A sleep duration: the integer backoff `1 + tries * 2`, or the
`retry_after` float read from a 429 body. -/
inductive Dur (F : Type) where
  | backoff (n : Nat)
  | retryAfter (x : F)
deriving DecidableEq

/-- An observable side effect of the retry loop: `asyncio.sleep`, or
clearing / setting the shared `_global_over` event. -/
inductive Event (F : Type) where
  | sleep (d : Dur F)
  | gateClose
  | gateOpen
deriving DecidableEq

/-- How `request` ends: the decoded body of a 2xx response, or a raised
exception. -/
inductive Outcome (F : Type) where
  | success (data : Body F)
  | exn (e : PyError)
deriving DecidableEq

/-- The retry loop of `HTTPClient.request` (http.py lines 167-236) together
with the code after it (lines 229-236).  `fuel` is the number of loop
iterations left (`range(5)` starts it at 5), `tries` the current iteration
index, `last` the last response assigned (none if no request ever
completed).  The environment `env` supplies the result of the request made
on iteration `tries`.  Returns the outcome and the trace of sleeps and
global-gate transitions, in order. -/
def requestGo {F : Type} (env : Nat → Attempt F) :
    Nat → Nat → Option (Resp F) → Outcome F × List (Event F)
  | 0, _, last =>
    match last with
    | some r =>
      if r.status ≥ 500 then (.exn (.revoltServerError r.status), [])
      else (.exn (.httpException r.status), [])
    | none => (.exn (.runtimeError "Unreachable code in HTTP handling"), [])
  | fuel + 1, tries, last =>
    match env tries with
    | .osErr e =>
      if tries < 4 ∧ (e = 54 ∨ e = 10054) then
        let res := requestGo env fuel (tries + 1) last
        (res.1, .sleep (.backoff (1 + tries * 2)) :: res.2)
      else (.exn (.osError e), [])
    | .resp r =>
      if 200 ≤ r.status ∧ r.status < 300 then (.success r.body, [])
      else if r.status = 429 then
        if !r.hasVia || r.body.isText then (.exn (.httpException r.status), [])
        else
          match r.body.retryAfterValue with
          | none => (.exn (.keyError "retry_after"), [])
          | some ra =>
            let g := r.body.globalValue
            let res := requestGo env fuel (tries + 1) (some r)
            (res.1,
             (if g then [Event.gateClose] else []) ++
               Event.sleep (Dur.retryAfter ra) ::
                 (if g then [Event.gateOpen] else []) ++ res.2)
      else if r.status = 500 ∨ r.status = 502 ∨ r.status = 504 then
        let res := requestGo env fuel (tries + 1) (some r)
        (res.1, .sleep (.backoff (1 + tries * 2)) :: res.2)
      else if r.status = 403 then (.exn (.forbidden r.status), [])
      else if r.status = 404 then (.exn (.notFound r.status), [])
      else if r.status ≥ 500 then (.exn (.revoltServerError r.status), [])
      else (.exn (.httpException r.status), [])

/-- `HTTPClient.request`: the retry loop entered with 5 iterations, no
previous response. -/
def request {F : Type} (env : Nat → Attempt F) : Outcome F × List (Event F) :=
  requestGo env 5 0 none

/-- The response `HTTPClient.upload_file` receives from its single POST to
the file-hosting endpoint: status and decoded body. -/
structure UploadResp (F : Type) where
  status : Nat
  data : Body F
deriving DecidableEq

/-- `HTTPClient.upload_file` (http.py lines 238-256), after the POST: 400
raises HTTPException, `500 <= status <= 600` raises RevoltServerError,
anything else returns the decoded body.  This path performs exactly one
request: no bucket lock, no global gate, no retry loop. -/
def upload_file {F : Type} (resp : UploadResp F) : PyResult (Body F) :=
  if resp.status = 400 then .exn (.httpException resp.status)
  else if 500 ≤ resp.status ∧ resp.status ≤ 600 then .exn (.revoltServerError resp.status)
  else .ok resp.data

/-- `Token` (token.py, referenced by http.py): kind and secret value. -/
structure Token where
  type : String
  value : String
deriving DecidableEq

/-- The credential handling of `HTTPClient.static_login` (http.py lines
266-281): install the new token, run `GET /users/@me` (its outcome is the
parameter), and on an HTTPException restore the previous token and either
wrap a 401 in LoginFailure or re-raise unchanged.  Returns the token left
installed and the call's result. -/
def static_login {F : Type} (oldToken : Option Token) (tok : Token)
    (reqOutcome : Outcome F) : Option Token × Outcome F :=
  match reqOutcome with
  | .success d => (some tok, .success d)
  | .exn e =>
    if isHTTPExceptionKind e then
      if statusOfExc e = 401 then
        (oldToken, .exn (.loginFailure "Improper token has been passed." e))
      else (oldToken, .exn e)
    else (some tok, .exn e)

/-- A JSON value in the `send_message` payload.  Embed, reply and masquerade
objects are opaque (`Nat` tags); the value shapes that occur are a string,
a masquerade object, a list of embeds, a list of attachment-id strings, a
list of replies, and a list whose elements are reply lists (the shape of
`[replie]`, a one-element list wrapping the supplied reply list). -/
inductive JVal where
  | jstr (s : String)
  | jmasq (m : Nat)
  | jembedList (es : List Nat)
  | jstrList (ss : List String)
  | jreplyList (rs : List Nat)
  | jreplyListList (xss : List (List Nat))
deriving DecidableEq

/-- The optional arguments of `HTTPClient.send_message` (http.py lines
290-302).  Embed, file and reply objects are opaque (`Nat` tags); `replie`
and `replies` are lists of reply objects as in the source annotations. -/
structure SendArgs where
  content : Option String
  embed : Option Nat
  embeds : Option (List Nat)
  attachment : Option Nat
  attachments : Option (List Nat)
  replie : Option (List Nat)
  replies : Option (List Nat)
  masquerade : Option Nat
deriving DecidableEq

/-- `if content: payload["content"] = content` (None and the empty string
are falsy). -/
def addContentStep (content : Option String) (p : List (String × JVal)) : List (String × JVal) :=
  match content with
  | some s => if s = "" then p else setItem p "content" (.jstr s)
  | none => p

/-- `if embed: payload["embeds"] = [embed]` (a supplied embed object is
modelled as truthy). -/
def addEmbedStep (embed : Option Nat) (p : List (String × JVal)) : List (String × JVal) :=
  match embed with
  | some e => setItem p "embeds" (.jembedList [e])
  | none => p

/-- `if embeds: payload["embeds"] = embeds` (the empty list is falsy). -/
def addEmbedsStep (embeds : Option (List Nat)) (p : List (String × JVal)) : List (String × JVal) :=
  match embeds with
  | some es => if es.isEmpty then p else setItem p "embeds" (.jembedList es)
  | none => p

/-- `if attachment: payload["attachments"] = [upload_file(attachment)["id"]]`;
`uploadId` gives the id the upload endpoint assigns to each file. -/
def addAttachmentStep (uploadId : Nat → String) (attachment : Option Nat)
    (p : List (String × JVal)) : List (String × JVal) :=
  match attachment with
  | some f => setItem p "attachments" (.jstrList [uploadId f])
  | none => p

/-- `if attachments: payload["attachments"] = [upload id of each file]`. -/
def addAttachmentsStep (uploadId : Nat → String) (attachments : Option (List Nat))
    (p : List (String × JVal)) : List (String × JVal) :=
  match attachments with
  | some fs =>
    if fs.isEmpty then p
    else setItem p "attachments" (.jstrList (fs.map uploadId))
  | none => p

/-- `if replie: payload["replies"] = [replie]` - the supplied list is wrapped
as a single element. -/
def addReplieStep (replie : Option (List Nat)) (p : List (String × JVal)) : List (String × JVal) :=
  match replie with
  | some rl => if rl.isEmpty then p else setItem p "replies" (.jreplyListList [rl])
  | none => p

/-- `if replies: payload["replies"] = replies`. -/
def addRepliesStep (replies : Option (List Nat)) (p : List (String × JVal)) : List (String × JVal) :=
  match replies with
  | some rs => if rs.isEmpty then p else setItem p "replies" (.jreplyList rs)
  | none => p

/-- `if masquerade: payload["masquerade"] = masquerade`. -/
def addMasqueradeStep (masquerade : Option Nat) (p : List (String × JVal)) : List (String × JVal) :=
  match masquerade with
  | some m => setItem p "masquerade" (.jmasq m)
  | none => p

/-- The payload built by `HTTPClient.send_message` (http.py lines 304-335):
the eight conditional assignments in source order, starting from the empty
dict. -/
def send_message_payload (uploadId : Nat → String) (a : SendArgs) : List (String × JVal) :=
  addMasqueradeStep a.masquerade
    (addRepliesStep a.replies
      (addReplieStep a.replie
        (addAttachmentsStep uploadId a.attachments
          (addAttachmentStep uploadId a.attachment
            (addEmbedsStep a.embeds
              (addEmbedStep a.embed
                (addContentStep a.content [])))))))

/-- A keyword override that `BaseFlags.__init__` accepts without raising:
a declared flag name with a boolean value. -/
def ValidKw (validFlags : List (String × Nat)) (kv : String × PyVal) : Prop :=
  (pyDictGet validFlags kv.1).isSome = true ∧ ∃ b, kv.2 = PyVal.pybool b

instance (validFlags : List (String × Nat)) (kv : String × PyVal) :
    Decidable (ValidKw validFlags kv) := by
  unfold ValidKw
  infer_instance

theorem pyAndNot_testBit (v o k : Nat) :
    (pyAndNot v o).testBit k = (v.testBit k && !o.testBit k) := by
  simp only [pyAndNot, Nat.testBit_xor, Nat.testBit_land]
  cases v.testBit k <;> cases o.testBit k <;> rfl

theorem testBit_eq_false_of_land_eq_zero {o o2 : Nat} (h : o &&& o2 = 0) (k : Nat)
    (hk : o.testBit k = true) : o2.testBit k = false := by
  have h2 : (o &&& o2).testBit k = false := by rw [h]; exact Nat.zero_testBit k
  rw [Nat.testBit_land, hk] at h2
  simpa using h2

theorem has_flag_or_self (v o : Nat) : has_flag (v ||| o) o = true := by
  have h : (v ||| o) &&& o = o := by
    apply Nat.eq_of_testBit_eq
    intro k
    rw [Nat.testBit_land, Nat.testBit_lor]
    cases v.testBit k <;> cases o.testBit k <;> rfl
  simp [has_flag, h]

theorem has_flag_pyAndNot_self (v o : Nat) (ho : o ≠ 0) :
    has_flag (pyAndNot v o) o = false := by
  have h : pyAndNot v o &&& o = 0 := by
    apply Nat.eq_of_testBit_eq
    intro k
    rw [Nat.testBit_land, pyAndNot_testBit, Nat.zero_testBit]
    cases v.testBit k <;> cases o.testBit k <;> rfl
  simp [has_flag, h]
  exact fun heq => ho heq.symm

theorem has_flag_or_disjoint (v o o2 : Nat) (h : o &&& o2 = 0) :
    has_flag (v ||| o) o2 = has_flag v o2 := by
  have heq : (v ||| o) &&& o2 = v &&& o2 := by
    apply Nat.eq_of_testBit_eq
    intro k
    rw [Nat.testBit_land, Nat.testBit_land, Nat.testBit_lor]
    by_cases hk : o.testBit k = true
    · rw [testBit_eq_false_of_land_eq_zero h k hk]
      cases v.testBit k <;> simp [hk]
    · simp only [Bool.not_eq_true] at hk
      rw [hk]
      cases v.testBit k <;> rfl
  simp [has_flag, heq]

theorem has_flag_pyAndNot_disjoint (v o o2 : Nat) (h : o &&& o2 = 0) :
    has_flag (pyAndNot v o) o2 = has_flag v o2 := by
  have heq : pyAndNot v o &&& o2 = v &&& o2 := by
    apply Nat.eq_of_testBit_eq
    intro k
    rw [Nat.testBit_land, Nat.testBit_land, pyAndNot_testBit]
    by_cases hk : o.testBit k = true
    · rw [testBit_eq_false_of_land_eq_zero h k hk]
      cases v.testBit k <;> simp [hk]
    · simp only [Bool.not_eq_true] at hk
      rw [hk]
      cases v.testBit k <;> rfl
  simp [has_flag, heq]

theorem mem_of_pyDictGet {α : Type} {l : List (String × α)} {k : String} {v : α}
    (h : pyDictGet l k = some v) : (k, v) ∈ l := by
  induction l with
  | nil => simp [pyDictGet] at h
  | cons hd tl ih =>
    rw [pyDictGet] at h
    split at h
    · rename_i heq
      injection h with h
      subst h
      subst heq
      exact List.mem_cons_self _ _
    · exact List.mem_cons_of_mem _ (ih h)

theorem ub_pairwise_disjoint :
    ∀ p ∈ UserBadges.VALID_FLAGS, ∀ q ∈ UserBadges.VALID_FLAGS,
      p.1 = q.1 ∨ p.2 &&& q.2 = 0 := by decide

theorem ub_bits_ne_zero : ∀ p ∈ UserBadges.VALID_FLAGS, p.2 ≠ 0 := by decide

theorem ub_find_disjoint {n n2 : String} {o o2 : Nat}
    (h1 : pyDictGet UserBadges.VALID_FLAGS n = some o)
    (h2 : pyDictGet UserBadges.VALID_FLAGS n2 = some o2)
    (hne : n ≠ n2) : o &&& o2 = 0 := by
  have m1 := mem_of_pyDictGet h1
  have m2 := mem_of_pyDictGet h2
  rcases ub_pairwise_disjoint (n, o) m1 (n2, o2) m2 with h | h
  · exact absurd h hne
  · exact h

theorem ub_find_ne_zero {n : String} {o : Nat}
    (h : pyDictGet UserBadges.VALID_FLAGS n = some o) : o ≠ 0 :=
  ub_bits_ne_zero (n, o) (mem_of_pyDictGet h)

theorem initFlags_eq_foldl_of_valid (cn : String) (vf : List (String × Nat))
    (l : List (String × PyVal)) (hval : ∀ kv ∈ l, ValidKw vf kv) :
    ∀ v : Nat, initFlags cn vf v l = .ok (l.foldl (applyKw vf) v) := by
  induction l with
  | nil => intro v; rfl
  | cons hd tl ih =>
    intro v
    obtain ⟨hsome, b, hb⟩ := hval hd (List.mem_cons_self _ _)
    obtain ⟨bit, hbit⟩ := Option.isSome_iff_exists.mp hsome
    have htl : ∀ kv ∈ tl, ValidKw vf kv := fun kv hkv => hval kv (List.mem_cons_of_mem _ hkv)
    obtain ⟨key, val⟩ := hd
    simp only at hb
    subst hb
    rw [initFlags, hbit]
    cases b <;>
      simp [set_flag, ih htl, List.foldl_cons, applyKw, hbit]

theorem initFlags_append_of_valid (cn : String) (vf : List (String × Nat))
    (pre rest : List (String × PyVal)) (hval : ∀ kv ∈ pre, ValidKw vf kv) :
    ∀ v : Nat, initFlags cn vf v (pre ++ rest) =
      initFlags cn vf (pre.foldl (applyKw vf) v) rest := by
  induction pre with
  | nil => intro v; rfl
  | cons hd tl ih =>
    intro v
    obtain ⟨hsome, b, hb⟩ := hval hd (List.mem_cons_self _ _)
    obtain ⟨bit, hbit⟩ := Option.isSome_iff_exists.mp hsome
    have htl : ∀ kv ∈ tl, ValidKw vf kv := fun kv hkv => hval kv (List.mem_cons_of_mem _ hkv)
    obtain ⟨key, val⟩ := hd
    simp only at hb
    subst hb
    rw [List.cons_append, initFlags, hbit]
    cases b <;>
      simp [set_flag, ih htl, List.foldl_cons, applyKw, hbit]

theorem lor_lor_comm (v o o2 : Nat) : (v ||| o) ||| o2 = (v ||| o2) ||| o := by
  apply Nat.eq_of_testBit_eq
  intro k
  simp only [Nat.testBit_lor]
  cases v.testBit k <;> cases o.testBit k <;> cases o2.testBit k <;> rfl

theorem pyAndNot_pyAndNot_comm (v o o2 : Nat) :
    pyAndNot (pyAndNot v o) o2 = pyAndNot (pyAndNot v o2) o := by
  apply Nat.eq_of_testBit_eq
  intro k
  simp only [pyAndNot_testBit]
  cases v.testBit k <;> cases o.testBit k <;> cases o2.testBit k <;> rfl

theorem pyAndNot_lor_comm (v o o2 : Nat) (h : o &&& o2 = 0) :
    pyAndNot (v ||| o) o2 = pyAndNot v o2 ||| o := by
  apply Nat.eq_of_testBit_eq
  intro k
  simp only [pyAndNot_testBit, Nat.testBit_lor]
  by_cases hk : o.testBit k = true
  · rw [hk, testBit_eq_false_of_land_eq_zero h k hk]
    cases v.testBit k <;> rfl
  · simp only [Bool.not_eq_true] at hk
    rw [hk]
    cases v.testBit k <;> cases o2.testBit k <;> rfl

theorem applyKw_ub_comm (k1 k2 : String) (w1 w2 : PyVal) (hne : k1 ≠ k2) (v : Nat) :
    applyKw UserBadges.VALID_FLAGS (applyKw UserBadges.VALID_FLAGS v (k1, w1)) (k2, w2) =
      applyKw UserBadges.VALID_FLAGS (applyKw UserBadges.VALID_FLAGS v (k2, w2)) (k1, w1) := by
  simp only [applyKw]
  cases hx : pyDictGet UserBadges.VALID_FLAGS k1 with
  | none => cases hy : pyDictGet UserBadges.VALID_FLAGS k2 <;> cases w1 <;> cases w2 <;> simp
  | some o =>
    cases hy : pyDictGet UserBadges.VALID_FLAGS k2 with
    | none => cases w1 <;> cases w2 <;> simp
    | some o2 =>
      have hdisj : o &&& o2 = 0 := ub_find_disjoint hx hy hne
      have hdisj2 : o2 &&& o = 0 := by rw [Nat.land_comm]; exact hdisj
      cases w1 with
      | nonBool => cases w2 <;> simp
      | pybool b =>
        cases w2 with
        | nonBool => simp
        | pybool b2 =>
          cases b with
          | false =>
            cases b2 with
            | false => simpa using pyAndNot_pyAndNot_comm v o o2
            | true => simpa using (pyAndNot_lor_comm v o2 o hdisj2).symm
          | true =>
            cases b2 with
            | false => simpa using pyAndNot_lor_comm v o o2 hdisj
            | true => simpa using lor_lor_comm v o o2

theorem foldl_applyKw_ub_perm {l1 l2 : List (String × PyVal)} (hp : l1.Perm l2)
    (hnd : (l1.map Prod.fst).Nodup) :
    ∀ v : Nat, l1.foldl (applyKw UserBadges.VALID_FLAGS) v =
      l2.foldl (applyKw UserBadges.VALID_FLAGS) v := by
  induction hp with
  | nil => intro v; rfl
  | cons x h ih =>
    intro v
    simp only [List.map_cons, List.nodup_cons] at hnd
    simp only [List.foldl_cons]
    exact ih hnd.2 (applyKw UserBadges.VALID_FLAGS v x)
  | swap x y l =>
    intro v
    simp only [List.map_cons, List.nodup_cons, List.mem_cons] at hnd
    have hne : y.1 ≠ x.1 := fun h => hnd.1 (Or.inl h)
    simp only [List.foldl_cons]
    obtain ⟨k1, w1⟩ := y
    obtain ⟨k2, w2⟩ := x
    rw [applyKw_ub_comm k1 k2 w1 w2 hne v]
  | trans h1 h2 ih1 ih2 =>
    intro v
    have hnd2 : (_ : List (String × PyVal)).map Prod.fst |>.Nodup :=
      ((h1.map Prod.fst).nodup_iff).mp hnd
    rw [ih1 hnd, ih2 hnd2]

theorem mem_collectFlags_iff (d : List (String × ClassMember)) (name : String) (bit : Nat) :
    (name, bit) ∈ collectFlags d ↔ (name, ClassMember.flagVal bit) ∈ d := by
  induction d with
  | nil => simp [collectFlags]
  | cons hd tl ih =>
    obtain ⟨n, m⟩ := hd
    cases m with
    | flagVal b => simp [collectFlags, List.mem_cons, ih, Prod.ext_iff]
    | otherMember => simp [collectFlags, List.mem_cons, ih]

/-- C6: constructing UserBadges with developer=True and founder=True yields
backing integer `(1<<0) | (1<<4)`; iterating that value yields every
declared (name, is-set) pair with exactly developer and founder true and
the other eight false; and construction from the same set of keyword
overrides (a permutation with distinct names, every entry a declared flag
with a boolean value) is order independent. -/
theorem userbadges_construct_iterate_equal :
    UserBadges.new [("developer", PyVal.pybool true), ("founder", PyVal.pybool true)] =
      .ok ((1 <<< 0) ||| (1 <<< 4))
    ∧ iterFlags UserBadges.classDict ((1 <<< 0) ||| (1 <<< 4)) =
        [("developer", true), ("translator", false), ("supporter", false),
         ("responsible_disclosure", false), ("founder", true), ("platform_moderation", false),
         ("active_supporter", false), ("paw", false), ("early_adopter", false),
         ("reserved_relevant_joke_badge_1", false)]
    ∧ ∀ l1 l2 : List (String × PyVal), l1.Perm l2 → (l1.map Prod.fst).Nodup →
        (∀ kv ∈ l1, ValidKw UserBadges.VALID_FLAGS kv) →
        UserBadges.new l1 = UserBadges.new l2 := by
  refine ⟨by decide, by decide, ?_⟩
  intro l1 l2 hp hnd hval
  have hval2 : ∀ kv ∈ l2, ValidKw UserBadges.VALID_FLAGS kv :=
    fun kv hkv => hval kv (hp.symm.subset hkv)
  rw [UserBadges.new, UserBadges.new,
    initFlags_eq_foldl_of_valid _ _ _ hval, initFlags_eq_foldl_of_valid _ _ _ hval2,
    foldl_applyKw_ub_perm hp hnd]

/-- Witness for C6: the two orders of the developer/founder keyword set give
equal instances. -/
theorem userbadges_construct_iterate_equal_witness :
    UserBadges.new [("developer", PyVal.pybool true), ("founder", PyVal.pybool true)] =
      UserBadges.new [("founder", PyVal.pybool true), ("developer", PyVal.pybool true)] :=
  userbadges_construct_iterate_equal.2.2 _ _
    (List.Perm.swap _ _ _) (by decide) (by decide)

/-- C7: `fill_with_flags` gives `DEFAULT_VALUE = 0` without inversion and
`2^(p+1) - 1` with inversion when the largest declared bit value is `2^p`,
and `VALID_FLAGS` holds exactly the declared flag names with their bit
values. -/
theorem fill_with_flags_properties (d : List (String × ClassMember)) (p : Nat)
    (hmax : maxValues ((collectFlags d).map Prod.snd) = 2 ^ p) :
    defaultValue false (collectFlags d) = 0
    ∧ defaultValue true (collectFlags d) = 2 ^ (p + 1) - 1
    ∧ ∀ name bit, (name, bit) ∈ collectFlags d ↔ (name, ClassMember.flagVal bit) ∈ d := by
  refine ⟨rfl, ?_, fun name bit => mem_collectFlags_iff d name bit⟩
  simp only [defaultValue, if_true]
  rw [hmax, Nat.size_pow]

/-- Witness for C7: `UserBadges` declares largest bit `512 = 2^9`, so an
inverted variant would default to `2^10 - 1` while the real class defaults
to 0. -/
theorem fill_with_flags_properties_witness :
    maxValues ((collectFlags UserBadges.classDict).map Prod.snd) = 2 ^ 9
    ∧ (defaultValue false (collectFlags UserBadges.classDict) = 0
       ∧ defaultValue true (collectFlags UserBadges.classDict) = 2 ^ (9 + 1) - 1
       ∧ ∀ name bit, (name, bit) ∈ collectFlags UserBadges.classDict ↔
           (name, ClassMember.flagVal bit) ∈ UserBadges.classDict) :=
  ⟨by decide, fill_with_flags_properties UserBadges.classDict 9 (by decide)⟩

/-- Counterexample for C8: both failure paths of flag-set construction raise
the same exception kind, TypeError (`typeError` here) - an undeclared name
does not raise a distinct invalid-argument (ValueError) kind. -/
theorem flags_error_kinds_counterexample :
    UserBadges.new [("nope", PyVal.pybool true)] =
      .exn (.typeError (.notAValidFlagName "nope"))
    ∧ UserBadges.new [("developer", PyVal.nonBool)] =
      .exn (.typeError (.mustBeABool "UserBadges")) :=
  ⟨by decide, by decide⟩

/-- C8 (amended): constructing with an undeclared keyword name raises
TypeError("... is not a valid flag name."), and a declared name with a
non-boolean value raises TypeError("Value to set ... must be a bool.");
both are TypeError, distinguished only by message, and each occurs for
every such input (after any prefix of valid boolean keywords). -/
theorem flags_invalid_kwargs (pre : List (String × PyVal))
    (hval : ∀ kv ∈ pre, ValidKw UserBadges.VALID_FLAGS kv)
    (key : String) (v : PyVal) (post : List (String × PyVal)) :
    (pyDictGet UserBadges.VALID_FLAGS key = none →
      UserBadges.new (pre ++ (key, v) :: post) =
        .exn (.typeError (.notAValidFlagName key)))
    ∧ (∀ bit, pyDictGet UserBadges.VALID_FLAGS key = some bit → v = PyVal.nonBool →
      UserBadges.new (pre ++ (key, v) :: post) =
        .exn (.typeError (.mustBeABool "UserBadges"))) := by
  constructor
  · intro hnone
    rw [UserBadges.new, initFlags_append_of_valid _ _ _ _ hval, initFlags, hnone]
  · intro bit hbit hv
    subst hv
    rw [UserBadges.new, initFlags_append_of_valid _ _ _ _ hval, initFlags, hbit]
    rfl

/-- Witness for C8 (amended): concrete failing constructions with a valid
prefix. -/
theorem flags_invalid_kwargs_witness :
    UserBadges.new [("developer", PyVal.pybool true), ("nope", PyVal.pybool true)] =
      .exn (.typeError (.notAValidFlagName "nope"))
    ∧ UserBadges.new [("developer", PyVal.pybool true), ("founder", PyVal.nonBool)] =
      .exn (.typeError (.mustBeABool "UserBadges")) :=
  ⟨(flags_invalid_kwargs [("developer", PyVal.pybool true)] (by decide)
      "nope" (PyVal.pybool true) []).1 (by decide),
   (flags_invalid_kwargs [("developer", PyVal.pybool true)] (by decide)
      "founder" PyVal.nonBool []).2 (1 <<< 4) (by decide) rfl⟩

/-- C10: writing a boolean to a declared UserBadges flag makes reading that
flag return the written value, and leaves every other declared flag's
reading unchanged. -/
theorem flags_write_read_frame (value : Nat) (n n2 : String) (o o2 : Nat) (b : Bool) (w : Nat)
    (h1 : pyDictGet UserBadges.VALID_FLAGS n = some o)
    (h2 : pyDictGet UserBadges.VALID_FLAGS n2 = some o2)
    (hne : n ≠ n2)
    (hset : set_flag "UserBadges" value o (PyVal.pybool b) = .ok w) :
    has_flag w o = b ∧ has_flag w o2 = has_flag value o2 := by
  have hdisj : o &&& o2 = 0 := ub_find_disjoint h1 h2 hne
  have ho : o ≠ 0 := ub_find_ne_zero h1
  cases b with
  | true =>
    simp only [set_flag, PyResult.ok.injEq] at hset
    subst hset
    exact ⟨has_flag_or_self value o, has_flag_or_disjoint value o o2 hdisj⟩
  | false =>
    simp only [set_flag, PyResult.ok.injEq] at hset
    subst hset
    exact ⟨has_flag_pyAndNot_self value o ho, has_flag_pyAndNot_disjoint value o o2 hdisj⟩

/-- Witness for C10: clearing developer on value 21 gives 20; founder's
reading is unchanged. -/
theorem flags_write_read_frame_witness :
    pyDictGet UserBadges.VALID_FLAGS "developer" = some 1
    ∧ pyDictGet UserBadges.VALID_FLAGS "founder" = some 16
    ∧ set_flag "UserBadges" 21 1 (PyVal.pybool false) = .ok 20
    ∧ (has_flag 20 1 = false ∧ has_flag 20 16 = has_flag 21 16) :=
  ⟨by decide, by decide, by decide,
   flags_write_read_frame 21 "developer" "founder" 1 16 false 20
     (by decide) (by decide) (by decide) (by decide)⟩

theorem requestGo_server_retry_step {F : Type} (env : Nat → Attempt F) (fuel tries : Nat)
    (last : Option (Resp F)) (r : Resp F) (henv : env tries = .resp r)
    (hst : r.status = 500 ∨ r.status = 502 ∨ r.status = 504) :
    requestGo env (fuel + 1) tries last =
      ((requestGo env fuel (tries + 1) (some r)).1,
       .sleep (.backoff (1 + tries * 2)) :: (requestGo env fuel (tries + 1) (some r)).2) := by
  rw [requestGo, henv]
  rcases hst with h | h | h <;> simp [h]

theorem requestGo_exhausted_server {F : Type} (env : Nat → Attempt F) (tries : Nat)
    (r : Resp F) (h : 500 ≤ r.status) :
    requestGo env 0 tries (some r) = (.exn (.revoltServerError r.status), []) := by
  rw [requestGo]
  rw [if_pos h]

/-- C1: when an attempt of the retry loop receives a 429 response, the
dispatcher raises HTTPException immediately (no sleep, no gate transition,
no further attempt) if the Via header is absent or the decoded body is
plain text; otherwise it reads retry_after and the optional global flag
from the JSON body, closes the gate before the sleep iff global, sleeps
retry_after, reopens the gate after the sleep iff global, and continues
into the next iteration, the 429 having consumed one of the 5 iterations. -/
theorem request_429_handling {F : Type} (env : Nat → Attempt F) (fuel tries : Nat)
    (last : Option (Resp F)) (r : Resp F)
    (henv : env tries = .resp r) (hst : r.status = 429) :
    ((r.hasVia = false ∨ r.body.isText = true) →
      requestGo env (fuel + 1) tries last = (.exn (.httpException 429), []))
    ∧ (∀ ra g, r.hasVia = true → r.body = Body.json (some ra) g →
      requestGo env (fuel + 1) tries last =
        ((requestGo env fuel (tries + 1) (some r)).1,
         (if g.getD false then [Event.gateClose] else []) ++
           Event.sleep (Dur.retryAfter ra) ::
             (if g.getD false then [Event.gateOpen] else []) ++
               (requestGo env fuel (tries + 1) (some r)).2)) := by
  constructor
  · intro h
    rw [requestGo, henv]
    rcases h with h | h <;> simp [hst, h]
  · intro ra g hvia hbody
    rw [requestGo, henv]
    simp [hst, hvia, hbody, Body.isText, Body.retryAfterValue, Body.globalValue]

/-- Witness for C1: a 429 with no Via header and a text body fails
immediately with HTTPException and an empty event trace. -/
theorem request_429_handling_witness :
    request (fun _ => Attempt.resp (⟨429, false, Body.text "blocked"⟩ : Resp Nat)) =
      (.exn (.httpException 429), []) :=
  (request_429_handling (fun _ => Attempt.resp ⟨429, false, Body.text "blocked"⟩) 4 0 none
      ⟨429, false, Body.text "blocked"⟩ rfl rfl).1 (Or.inl rfl)

/-- Counterexample for C2: five consecutive 502 responses produce FIVE
sleeps (1, 3, 5, 7 and 9 seconds - one after every attempt, including the
final one) before RevoltServerError is raised, not the four sleeps
(1, 3, 5, 7) the claim states. -/
theorem request_5xx_counterexample :
    request (fun _ => Attempt.resp (⟨502, false, Body.text "bad gateway"⟩ : Resp Nat)) =
      (.exn (.revoltServerError 502),
       [.sleep (.backoff 1), .sleep (.backoff 3), .sleep (.backoff 5),
        .sleep (.backoff 7), .sleep (.backoff 9)])
    ∧ (request (fun _ => Attempt.resp (⟨502, false, Body.text "bad gateway"⟩ : Resp Nat))).2 ≠
        [.sleep (.backoff 1), .sleep (.backoff 3), .sleep (.backoff 5),
         .sleep (.backoff 7)] := by
  constructor <;> decide

/-- C2 (amended): if every attempt receives a status in {500, 502, 504},
the dispatcher makes exactly 5 attempts and raises RevoltServerError,
sleeping after every attempt including the last: 5 sleeps of 1, 3, 5, 7, 9
seconds (`1 + 2 * attempt_index` for attempt_index 0 through 4). -/
theorem request_5xx_exhaustion {F : Type} (env : Nat → Attempt F)
    (r0 r1 r2 r3 r4 : Resp F)
    (h0 : env 0 = .resp r0) (h1 : env 1 = .resp r1) (h2 : env 2 = .resp r2)
    (h3 : env 3 = .resp r3) (h4 : env 4 = .resp r4)
    (s0 : r0.status = 500 ∨ r0.status = 502 ∨ r0.status = 504)
    (s1 : r1.status = 500 ∨ r1.status = 502 ∨ r1.status = 504)
    (s2 : r2.status = 500 ∨ r2.status = 502 ∨ r2.status = 504)
    (s3 : r3.status = 500 ∨ r3.status = 502 ∨ r3.status = 504)
    (s4 : r4.status = 500 ∨ r4.status = 502 ∨ r4.status = 504) :
    request env = (.exn (.revoltServerError r4.status),
      [.sleep (.backoff 1), .sleep (.backoff 3), .sleep (.backoff 5),
       .sleep (.backoff 7), .sleep (.backoff 9)]) := by
  have h500 : 500 ≤ r4.status := by rcases s4 with h | h | h <;> omega
  have e0 : requestGo env 5 0 none =
      ((requestGo env 4 1 (some r0)).1,
       .sleep (.backoff 1) :: (requestGo env 4 1 (some r0)).2) := by
    simpa using requestGo_server_retry_step env 4 0 none r0 h0 s0
  have e1 : requestGo env 4 1 (some r0) =
      ((requestGo env 3 2 (some r1)).1,
       .sleep (.backoff 3) :: (requestGo env 3 2 (some r1)).2) := by
    simpa using requestGo_server_retry_step env 3 1 (some r0) r1 h1 s1
  have e2 : requestGo env 3 2 (some r1) =
      ((requestGo env 2 3 (some r2)).1,
       .sleep (.backoff 5) :: (requestGo env 2 3 (some r2)).2) := by
    simpa using requestGo_server_retry_step env 2 2 (some r1) r2 h2 s2
  have e3 : requestGo env 2 3 (some r2) =
      ((requestGo env 1 4 (some r3)).1,
       .sleep (.backoff 7) :: (requestGo env 1 4 (some r3)).2) := by
    simpa using requestGo_server_retry_step env 1 3 (some r2) r3 h3 s3
  have e4 : requestGo env 1 4 (some r3) =
      ((requestGo env 0 5 (some r4)).1,
       .sleep (.backoff 9) :: (requestGo env 0 5 (some r4)).2) := by
    simpa using requestGo_server_retry_step env 0 4 (some r3) r4 h4 s4
  have e5 := requestGo_exhausted_server env 5 r4 h500
  rw [request, e0, e1, e2, e3, e4, e5]

/-- Witness for C2 (amended): the all-502 environment realises the five
attempts and five sleeps. -/
theorem request_5xx_exhaustion_witness :
    request (fun _ => Attempt.resp (⟨502, true, Body.text "worker error"⟩ : Resp Nat)) =
      (.exn (.revoltServerError 502),
       [.sleep (.backoff 1), .sleep (.backoff 3), .sleep (.backoff 5),
        .sleep (.backoff 7), .sleep (.backoff 9)]) :=
  request_5xx_exhaustion _ _ _ _ _ _ rfl rfl rfl rfl rfl
    (Or.inr (Or.inl rfl)) (Or.inr (Or.inl rfl)) (Or.inr (Or.inl rfl))
    (Or.inr (Or.inl rfl)) (Or.inr (Or.inl rfl))

/-- Counterexample for C3: a login attempt failing with an HTTPException of
status 400 (not 401) restores the previously installed credential - the
attempted token does NOT remain installed as the claim states. -/
theorem static_login_restore_counterexample :
    static_login (some ⟨"bot", "old"⟩) ⟨"bot", "new"⟩
        (Outcome.exn (PyError.httpException 400) : Outcome Nat) =
      (some ⟨"bot", "old"⟩, Outcome.exn (PyError.httpException 400))
    ∧ some (⟨"bot", "old"⟩ : Token) ≠ some (⟨"bot", "new"⟩ : Token) := by
  constructor <;> decide

/-- C3 (amended): on success the attempted token stays installed; on any
HTTPException-kind failure of GET /users/@me the previous credential is
restored, and the error is wrapped in LoginFailure (with the HTTPException
as cause) exactly when its status is 401, re-raised unchanged otherwise;
a non-HTTP failure propagates with the attempted token still installed. -/
theorem static_login_behavior {F : Type} (oldToken : Option Token) (tok : Token)
    (res : Outcome F) :
    (∀ d, res = .success d → static_login oldToken tok res = (some tok, .success d))
    ∧ (∀ e, res = .exn e → isHTTPExceptionKind e = true → statusOfExc e = 401 →
        static_login oldToken tok res =
          (oldToken, .exn (.loginFailure "Improper token has been passed." e)))
    ∧ (∀ e, res = .exn e → isHTTPExceptionKind e = true → statusOfExc e ≠ 401 →
        static_login oldToken tok res = (oldToken, .exn e))
    ∧ (∀ e, res = .exn e → isHTTPExceptionKind e = false →
        static_login oldToken tok res = (some tok, .exn e)) := by
  refine ⟨?_, ?_, ?_, ?_⟩
  · intro d hres
    subst hres
    rfl
  · intro e hres hkind hst
    subst hres
    simp [static_login, hkind, hst]
  · intro e hres hkind hst
    subst hres
    simp [static_login, hkind, hst]
  · intro e hres hkind
    subst hres
    simp [static_login, hkind]

/-- Witness for C3 (amended): a 403 Forbidden during login restores the old
token and re-raises the error unchanged. -/
theorem static_login_behavior_witness :
    static_login (some (⟨"bot", "old"⟩ : Token)) ⟨"bot", "new"⟩
        (Outcome.exn (PyError.forbidden 403) : Outcome Nat) =
      (some ⟨"bot", "old"⟩, Outcome.exn (PyError.forbidden 403)) :=
  (static_login_behavior _ _ _).2.2.1 _ rfl rfl (by decide)

/-- Counterexample for C4: a Route with no major parameters renders the
bucket placeholders as the Python string "None", not as empty strings. -/
theorem route_bucket_none_counterexample :
    Route.bucket ⟨"GET", "/x", []⟩ = "None:None:/x"
    ∧ Route.bucket ⟨"GET", "/x", []⟩ ≠ "::/x" := by
  constructor <;> decide

/-- C4 (amended): the bucket key is
"{channel_id}:{server_id}:{path}" with the literal path template and with
absent major parameters rendered as "None" (Python str() of None); in
particular channel_id="C", server_id="S", path="/x/{channel_id}" gives
"C:S:/x/{channel_id}". -/
theorem route_bucket_amended (method path C S : String) :
    Route.bucket ⟨method, path, [("channel_id", C), ("server_id", S)]⟩ =
      C ++ ":" ++ S ++ ":" ++ path
    ∧ Route.bucket ⟨method, path, []⟩ = "None" ++ ":" ++ "None" ++ ":" ++ path
    ∧ Route.bucket ⟨"POST", "/x/{channel_id}", [("channel_id", "C"), ("server_id", "S")]⟩ =
        "C:S:/x/{channel_id}" := by
  refine ⟨?_, ?_, by decide⟩
  · simp [Route.bucket, Route.channel_id, Route.server_id, pyDictGet, pyFormatOpt]
  · simp [Route.bucket, Route.channel_id, Route.server_id, pyDictGet, pyFormatOpt]

/-- Counterexample for C9: a status of exactly 600 raises RevoltServerError
(the code tests `500 <= status <= 600`), while the claim's 500-599 range
says the decoded body would be returned. -/
theorem upload_file_600_counterexample :
    upload_file (⟨600, Body.text "edge"⟩ : UploadResp Nat) =
      .exn (.revoltServerError 600)
    ∧ upload_file (⟨600, Body.text "edge"⟩ : UploadResp Nat) ≠ .ok (Body.text "edge") := by
  constructor <;> decide

/-- C9 (amended): for the single-request upload path, status 400 raises
HTTPException, any status in 500-600 INCLUSIVE raises RevoltServerError,
and every other status returns the decoded body. -/
theorem upload_file_classification {F : Type} (resp : UploadResp F) :
    (resp.status = 400 → upload_file resp = .exn (.httpException 400))
    ∧ (500 ≤ resp.status → resp.status ≤ 600 →
        upload_file resp = .exn (.revoltServerError resp.status))
    ∧ (resp.status ≠ 400 → (resp.status < 500 ∨ 600 < resp.status) →
        upload_file resp = .ok resp.data) := by
  refine ⟨?_, ?_, ?_⟩
  · intro h
    simp [upload_file, h]
  · intro hlo hhi
    rw [upload_file, if_neg (by omega), if_pos ⟨hlo, hhi⟩]
  · intro hne hout
    rw [upload_file, if_neg hne, if_neg (by omega)]

/-- Witness for C9 (amended): a 404 from the upload endpoint returns the
decoded body. -/
theorem upload_file_classification_witness :
    upload_file (⟨404, Body.text "missing"⟩ : UploadResp Nat) = .ok (Body.text "missing") :=
  (upload_file_classification _).2.2 (by decide) (Or.inl (by decide))

theorem pyDictGet_setItem_self {α : Type} (d : List (String × α)) (k : String) (v : α) :
    pyDictGet (setItem d k v) k = some v := by
  induction d with
  | nil => simp [setItem, pyDictGet]
  | cons hd tl ih =>
    obtain ⟨k0, v0⟩ := hd
    rw [setItem]
    by_cases h : k0 = k
    · simp [h, pyDictGet]
    · simp [h, pyDictGet, ih]

theorem pyDictGet_setItem_ne {α : Type} (d : List (String × α)) (k0 k : String) (v : α)
    (h : k0 ≠ k) : pyDictGet (setItem d k0 v) k = pyDictGet d k := by
  induction d with
  | nil => simp [setItem, pyDictGet, h]
  | cons hd tl ih =>
    obtain ⟨k1, v1⟩ := hd
    rw [setItem]
    by_cases h1 : k1 = k0
    · subst h1
      simp [pyDictGet, h]
    · simp only [if_neg h1]
      rw [pyDictGet, pyDictGet]
      by_cases h2 : k1 = k
      · simp [h2]
      · simp [h2, ih]

theorem addContentStep_get_ne (c : Option String) (p : List (String × JVal)) (k : String)
    (h : k ≠ "content") : pyDictGet (addContentStep c p) k = pyDictGet p k := by
  cases c with
  | none => rfl
  | some s =>
    rw [addContentStep]
    split
    · rfl
    · exact pyDictGet_setItem_ne p "content" k _ (Ne.symm h)

theorem addEmbedStep_get_ne (e : Option Nat) (p : List (String × JVal)) (k : String)
    (h : k ≠ "embeds") : pyDictGet (addEmbedStep e p) k = pyDictGet p k := by
  cases e with
  | none => rfl
  | some e => exact pyDictGet_setItem_ne p "embeds" k _ (Ne.symm h)

theorem addEmbedsStep_get_ne (es : Option (List Nat)) (p : List (String × JVal)) (k : String)
    (h : k ≠ "embeds") : pyDictGet (addEmbedsStep es p) k = pyDictGet p k := by
  cases es with
  | none => rfl
  | some es =>
    rw [addEmbedsStep]
    split
    · rfl
    · exact pyDictGet_setItem_ne p "embeds" k _ (Ne.symm h)

theorem addAttachmentStep_get_ne (u : Nat → String) (f : Option Nat)
    (p : List (String × JVal)) (k : String) (h : k ≠ "attachments") :
    pyDictGet (addAttachmentStep u f p) k = pyDictGet p k := by
  cases f with
  | none => rfl
  | some f => exact pyDictGet_setItem_ne p "attachments" k _ (Ne.symm h)

theorem addAttachmentsStep_get_ne (u : Nat → String) (fs : Option (List Nat))
    (p : List (String × JVal)) (k : String) (h : k ≠ "attachments") :
    pyDictGet (addAttachmentsStep u fs p) k = pyDictGet p k := by
  cases fs with
  | none => rfl
  | some fs =>
    rw [addAttachmentsStep]
    split
    · rfl
    · exact pyDictGet_setItem_ne p "attachments" k _ (Ne.symm h)

theorem addReplieStep_get_ne (rl : Option (List Nat)) (p : List (String × JVal)) (k : String)
    (h : k ≠ "replies") : pyDictGet (addReplieStep rl p) k = pyDictGet p k := by
  cases rl with
  | none => rfl
  | some rl =>
    rw [addReplieStep]
    split
    · rfl
    · exact pyDictGet_setItem_ne p "replies" k _ (Ne.symm h)

theorem addRepliesStep_get_ne (rs : Option (List Nat)) (p : List (String × JVal)) (k : String)
    (h : k ≠ "replies") : pyDictGet (addRepliesStep rs p) k = pyDictGet p k := by
  cases rs with
  | none => rfl
  | some rs =>
    rw [addRepliesStep]
    split
    · rfl
    · exact pyDictGet_setItem_ne p "replies" k _ (Ne.symm h)

theorem addMasqueradeStep_get_ne (m : Option Nat) (p : List (String × JVal)) (k : String)
    (h : k ≠ "masquerade") : pyDictGet (addMasqueradeStep m p) k = pyDictGet p k := by
  cases m with
  | none => rfl
  | some m => exact pyDictGet_setItem_ne p "masquerade" k _ (Ne.symm h)

/-- C5: in the send_message payload the plural list form wins over the
singular form for embeds, attachments and replies when both are supplied
and truthy (the plural appears verbatim, attachments as their uploaded
ids); a singular supplied alone is wrapped into a one-element list. -/
theorem send_message_precedence (uploadId : Nat → String) (a : SendArgs) :
    (∀ e es, a.embed = some e → a.embeds = some es → es ≠ [] →
      pyDictGet (send_message_payload uploadId a) "embeds" = some (.jembedList es))
    ∧ (∀ f fs, a.attachment = some f → a.attachments = some fs → fs ≠ [] →
      pyDictGet (send_message_payload uploadId a) "attachments" =
        some (.jstrList (fs.map uploadId)))
    ∧ (∀ rl rs, a.replie = some rl → rl ≠ [] → a.replies = some rs → rs ≠ [] →
      pyDictGet (send_message_payload uploadId a) "replies" = some (.jreplyList rs))
    ∧ (∀ e, a.embed = some e → (a.embeds = none ∨ a.embeds = some []) →
      pyDictGet (send_message_payload uploadId a) "embeds" = some (.jembedList [e]))
    ∧ (∀ f, a.attachment = some f → (a.attachments = none ∨ a.attachments = some []) →
      pyDictGet (send_message_payload uploadId a) "attachments" =
        some (.jstrList [uploadId f]))
    ∧ (∀ rl, a.replie = some rl → rl ≠ [] → (a.replies = none ∨ a.replies = some []) →
      pyDictGet (send_message_payload uploadId a) "replies" =
        some (.jreplyListList [rl])) := by
  refine ⟨?_, ?_, ?_, ?_, ?_, ?_⟩
  · intro e es he hes hne
    rw [send_message_payload,
      addMasqueradeStep_get_ne _ _ _ (by decide),
      addRepliesStep_get_ne _ _ _ (by decide),
      addReplieStep_get_ne _ _ _ (by decide),
      addAttachmentsStep_get_ne _ _ _ _ (by decide),
      addAttachmentStep_get_ne _ _ _ _ (by decide),
      hes, addEmbedsStep]
    rw [if_neg (by simpa using hne)]
    exact pyDictGet_setItem_self _ _ _
  · intro f fs hf hfs hne
    rw [send_message_payload,
      addMasqueradeStep_get_ne _ _ _ (by decide),
      addRepliesStep_get_ne _ _ _ (by decide),
      addReplieStep_get_ne _ _ _ (by decide),
      hfs, addAttachmentsStep]
    rw [if_neg (by simpa using hne)]
    exact pyDictGet_setItem_self _ _ _
  · intro rl rs hrl hrlne hrs hrsne
    rw [send_message_payload,
      addMasqueradeStep_get_ne _ _ _ (by decide),
      hrs, addRepliesStep]
    rw [if_neg (by simpa using hrsne)]
    exact pyDictGet_setItem_self _ _ _
  · intro e he hes
    rw [send_message_payload,
      addMasqueradeStep_get_ne _ _ _ (by decide),
      addRepliesStep_get_ne _ _ _ (by decide),
      addReplieStep_get_ne _ _ _ (by decide),
      addAttachmentsStep_get_ne _ _ _ _ (by decide),
      addAttachmentStep_get_ne _ _ _ _ (by decide)]
    have hskip : pyDictGet (addEmbedsStep a.embeds (addEmbedStep a.embed
        (addContentStep a.content []))) "embeds" =
        pyDictGet (addEmbedStep a.embed (addContentStep a.content [])) "embeds" := by
      rcases hes with h | h <;> rw [h] <;> rfl
    rw [hskip, he, addEmbedStep]
    exact pyDictGet_setItem_self _ _ _
  · intro f hf hfs
    rw [send_message_payload,
      addMasqueradeStep_get_ne _ _ _ (by decide),
      addRepliesStep_get_ne _ _ _ (by decide),
      addReplieStep_get_ne _ _ _ (by decide)]
    have hskip : pyDictGet (addAttachmentsStep uploadId a.attachments
        (addAttachmentStep uploadId a.attachment (addEmbedsStep a.embeds
          (addEmbedStep a.embed (addContentStep a.content []))))) "attachments" =
        pyDictGet (addAttachmentStep uploadId a.attachment (addEmbedsStep a.embeds
          (addEmbedStep a.embed (addContentStep a.content [])))) "attachments" := by
      rcases hfs with h | h <;> rw [h] <;> rfl
    rw [hskip, hf, addAttachmentStep]
    exact pyDictGet_setItem_self _ _ _
  · intro rl hrl hrlne hrs
    rw [send_message_payload,
      addMasqueradeStep_get_ne _ _ _ (by decide)]
    have hskip : pyDictGet (addRepliesStep a.replies (addReplieStep a.replie
        (addAttachmentsStep uploadId a.attachments (addAttachmentStep uploadId a.attachment
          (addEmbedsStep a.embeds (addEmbedStep a.embed
            (addContentStep a.content []))))))) "replies" =
        pyDictGet (addReplieStep a.replie (addAttachmentsStep uploadId a.attachments
          (addAttachmentStep uploadId a.attachment (addEmbedsStep a.embeds
            (addEmbedStep a.embed (addContentStep a.content [])))))) "replies" := by
      rcases hrs with h | h <;> rw [h] <;> rfl
    rw [hskip, hrl, addReplieStep]
    rw [if_neg (by simpa using hrlne)]
    exact pyDictGet_setItem_self _ _ _

/-- Witness for C5: with every argument supplied, the plural forms appear
in the payload. -/
theorem send_message_precedence_witness :
    pyDictGet (send_message_payload (fun n => toString n)
        ⟨some "hi", some 1, some [2, 3], some 4, some [5, 6], some [7], some [8, 9],
         some 10⟩) "embeds" = some (.jembedList [2, 3])
    ∧ pyDictGet (send_message_payload (fun n => toString n)
        ⟨some "hi", some 1, some [2, 3], some 4, some [5, 6], some [7], some [8, 9],
         some 10⟩) "attachments" = some (.jstrList (List.map (fun n => toString n) [5, 6]))
    ∧ pyDictGet (send_message_payload (fun n => toString n)
        ⟨some "hi", some 1, some [2, 3], some 4, some [5, 6], some [7], some [8, 9],
         some 10⟩) "replies" = some (.jreplyList [8, 9]) :=
  ⟨(send_message_precedence (fun n => toString n) _).1 1 [2, 3] rfl rfl (by decide),
   (send_message_precedence (fun n => toString n) _).2.1 4 [5, 6] rfl rfl (by decide),
   (send_message_precedence (fun n => toString n) _).2.2.1 [7] [8, 9] rfl (by decide)
     rfl (by decide)⟩
